import Mathlib

/-!
Verification of `mplsoccer/quiver.py`: the `arrows` wrapper around the
quiver plotting call and the `HandlerQuiver.create_artists` legend
renderer.

The embedding is shallow.  Numeric values are exact rationals (`ℚ`).
Keyword-argument dictionaries are association lists from `String` to a
dynamic `PyVal`; `dict.pop(key, default)` becomes `dictPop`.  Array-like
inputs (scalars or 1-D arrays) are `ArrayLike`, with `np.ravel` as
`ravel`.  A Python `raise` becomes an `Except.error` carrying the
message; the call that `arrows` makes into `ax.quiver` is reified as a
`QuiverCall` record of every positional and keyword argument it passes.
-/

namespace Mplsoccer

/-- Dynamic Python value appearing in keyword arguments: a string option
such as a unit name, or a number. -/
inductive PyVal where
  | str (s : String)
  | num (q : ℚ)
deriving DecidableEq, Repr

/-- A `**kwargs` dictionary, modelled as an association list. -/
abbrev Kwargs := List (String × PyVal)

/-- Dictionary lookup (first binding of the key). -/
def lookupKw : Kwargs → String → Option PyVal
  | [], _ => none
  | (k, v) :: t, key => if k = key then some v else lookupKw t key

/-- Remove every binding of a key (a Python dict holds each key once, so
this is the deletion `dict.pop` performs). -/
def removeKw : Kwargs → String → Kwargs
  | [], _ => []
  | (k, v) :: t, key => if k = key then removeKw t key else (k, v) :: removeKw t key

/-- `kwargs.pop(key, default)`: the value with the key removed, or the
default with the dictionary unchanged. -/
def dictPop (kwargs : Kwargs) (key : String) (default : PyVal) : PyVal × Kwargs :=
  match lookupKw kwargs key with
  | some v => (v, removeKw kwargs key)
  | none => (default, kwargs)

/-- Array-like coordinate input to `arrows`: a scalar or a 1-D array. -/
inductive ArrayLike where
  | scalar (q : ℚ)
  | arr (xs : List ℚ)
deriving DecidableEq, Repr

/-- `np.ravel`: flatten to a 1-D array; a scalar becomes a size-1 array. -/
def ravel : ArrayLike → List ℚ
  | .scalar q => [q]
  | .arr xs => xs

/-- The call `arrows` makes into `ax.quiver(xstart, ystart, u, v, *args,
units=..., scale_units=..., angles=..., scale=..., width=..., **kwargs)`,
reified as a record of everything passed. -/
structure QuiverCall where
  xstart : List ℚ
  ystart : List ℚ
  u : List ℚ
  v : List ℚ
  args : List PyVal
  units : PyVal
  scale_units : PyVal
  angles : PyVal
  scale : PyVal
  width : ℚ
  kwargs : Kwargs
deriving DecidableEq, Repr

/-- Result of the five `kwargs.pop` calls at the top of `arrows`
(quiver.py lines 80-85). -/
structure PoppedOpts where
  units : PyVal
  scale_units : PyVal
  angles : PyVal
  scale : PyVal
  widthRaw : PyVal
  rest : Kwargs
deriving DecidableEq, Repr

/-- The five sequential `kwargs.pop` calls of `arrows`:
`units`, `scale_units`, `angles`, `scale`, `width`, with defaults
`'inches'`, `'xy'`, `'xy'`, `1`, `4`. -/
def popOpts (kwargs : Kwargs) : PoppedOpts :=
  let p1 := dictPop kwargs "units" (PyVal.str "inches")
  let p2 := dictPop p1.2 "scale_units" (PyVal.str "xy")
  let p3 := dictPop p2.2 "angles" (PyVal.str "xy")
  let p4 := dictPop p3.2 "scale" (PyVal.num 1)
  let p5 := dictPop p4.2 "width" (PyVal.num 4)
  ⟨p1.1, p2.1, p3.1, p4.1, p5.1, p5.2⟩

/-- The `width` keyword, when supplied, is a number (so that the
division `width / 72.` is defined rather than a `TypeError`). -/
def widthIsNumeric (kwargs : Kwargs) : Bool :=
  match lookupKw kwargs "width" with
  | some (PyVal.str _) => false
  | _ => true

/-- `mplsoccer.quiver.arrows(xstart, ystart, xend, yend, *args, ax=ax,
vertical=vertical, **kwargs)`.  Mirrors quiver.py lines 77-111: pop the
five styling keywords, convert `width` to inches (`width / 72.`), ravel
the four coordinate inputs, raise `ValueError` on the three pairwise
size checks, form `u = xend - xstart`, `v = yend - ystart`, swap
locations and directions when `vertical`, and call `ax.quiver`.
An `Except.error` is a `raise` inside `arrows`; an `Except.ok` is the
delegated quiver call. -/
def arrows (xstart ystart xend yend : ArrayLike) (args : List PyVal)
    (vertical : Bool) (kwargs : Kwargs) : Except String QuiverCall :=
  let opts := popOpts kwargs
  match opts.widthRaw with
  | PyVal.str _ => Except.error "unsupported operand type for division"
  | PyVal.num w0 =>
    let width := w0 / 72
    let xs := ravel xstart
    let ys := ravel ystart
    let xe := ravel xend
    let ye := ravel yend
    if xs.length ≠ ys.length then Except.error "xstart and ystart must be the same size"
    else if xs.length ≠ xe.length then Except.error "xstart and xend must be the same size"
    else if ys.length ≠ ye.length then Except.error "ystart and yend must be the same size"
    else
      let u := List.zipWith (fun a b => a - b) xe xs
      let v := List.zipWith (fun a b => a - b) ye ys
      if vertical then
        Except.ok { xstart := ys, ystart := xs, u := v, v := u, args := args,
                    units := opts.units, scale_units := opts.scale_units,
                    angles := opts.angles, scale := opts.scale,
                    width := width, kwargs := opts.rest }
      else
        Except.ok { xstart := xs, ystart := ys, u := u, v := v, args := args,
                    units := opts.units, scale_units := opts.scale_units,
                    angles := opts.angles, scale := opts.scale,
                    width := width, kwargs := opts.rest }

deriving instance DecidableEq for Except

/-- An RGBA colour, as the list of its channel values. -/
abbrev Color := List ℚ

/-- The attributes of a drawn quiver artist that
`HandlerQuiver.create_artists` reads back out of `orig_handle`:
`width`, `headwidth`, `headlength`, `headaxislength`,
`get_edgecolor()`, `get_facecolor()` and `get_linewidths()`. -/
structure QuiverHandle where
  width : ℚ
  headwidth : ℚ
  headlength : ℚ
  headaxislength : ℚ
  edgecolor : List Color
  facecolor : List Color
  linewidths : List ℚ
deriving DecidableEq, Repr

/-- The `patches.FancyArrow` glyph that `create_artists` builds,
as the record of arguments passed to its constructor. -/
structure FancyArrow where
  x : ℚ
  y : ℚ
  dx : ℚ
  dy : ℚ
  head_width : ℚ
  head_length : ℚ
  overhang : ℚ
  length_includes_head : Bool
  width : ℚ
  lw : ℚ
  edgecolor : Option Color
  facecolor : Option Color
deriving DecidableEq, Repr

/-- `HandlerQuiver.create_artists` (quiver.py lines 122-149).  `xdata`
stands for the output of the inherited `self.get_xdata(...)` helper and
`height`, `ydescent` for the legend-box geometry; everything else is read
from `orig_handle`.  Mirrors the source: `ydata` is a constant array of
`(height - ydescent) / 2`, the shaft width is the stored width times 72,
the head width and length are that times the stored multipliers, the
overhang is `(headlength - headaxislength) / headlength` (a
`ZeroDivisionError` when the stored `headlength` is zero), the edge and
face colours are `None` when the stored colour arrays are empty and
their first entries otherwise, and the `FancyArrow` runs from the first
to the last legend point (an `IndexError` on an empty `xdata` or
linewidth array). -/
def create_artists (orig_handle : QuiverHandle) (xdata : List ℚ)
    (height ydescent : ℚ) : Except String FancyArrow :=
  let ydata := List.replicate xdata.length ((height - ydescent) / 2)
  let width := orig_handle.width * 72
  let head_width := width * orig_handle.headwidth
  let head_length := width * orig_handle.headlength
  if orig_handle.headlength = 0 then Except.error "float division by zero"
  else
    let overhang := (orig_handle.headlength - orig_handle.headaxislength) / orig_handle.headlength
    let edgecolor := orig_handle.edgecolor.head?
    let facecolor := orig_handle.facecolor.head?
    match xdata, ydata, orig_handle.linewidths with
    | x0 :: _, y0 :: _, lw0 :: _ =>
        Except.ok { x := x0, y := y0,
                    dx := xdata.getLastD 0 - x0,
                    dy := ydata.getLastD 0 - y0,
                    head_width := head_width, head_length := head_length,
                    overhang := overhang, length_includes_head := true,
                    width := width, lw := lw0,
                    edgecolor := edgecolor, facecolor := facecolor }
    | _, _, _ => Except.error "list index out of range"

/-! ### Concrete sample runs -/

/-- The quiver call delegated by
`arrows([0], [2], [4], [6], ax=ax)` (horizontal, all defaults). -/
def exCallH : QuiverCall :=
  ⟨[0], [2], [4], [4], [], PyVal.str "inches", PyVal.str "xy", PyVal.str "xy",
    PyVal.num 1, 4 / 72, []⟩

/-- The quiver call delegated by
`arrows([0], [2], [4], [6], ax=ax, vertical=True)`. -/
def exCallV : QuiverCall :=
  ⟨[2], [0], [4], [4], [], PyVal.str "inches", PyVal.str "xy", PyVal.str "xy",
    PyVal.num 1, 4 / 72, []⟩

/-- The quiver call delegated by
`arrows([1], [2], [3], [4], ax=ax, color='red')`. -/
def exCall5 : QuiverCall :=
  ⟨[1], [2], [2], [2], [], PyVal.str "inches", PyVal.str "xy", PyVal.str "xy",
    PyVal.num 1, 4 / 72, [("color", PyVal.str "red")]⟩

/-- The quiver call delegated by
`arrows([0], [2], [4], [6], ax=ax, width=8)`. -/
def exCallW : QuiverCall :=
  ⟨[0], [2], [4], [4], [], PyVal.str "inches", PyVal.str "xy", PyVal.str "xy",
    PyVal.num 1, 8 / 72, []⟩

/-- A quiver artist drawn with the default style: stored width
`4 / 72 = 1/18`, multipliers 3 / 5 / 4.5, black edges, white faces. -/
def exHandle : QuiverHandle :=
  ⟨1 / 18, 3, 5, 9 / 2, [[0, 0, 0, 1]], [[1, 1, 1, 1]], [1]⟩

/-- A handle whose stored `headlength` is zero. -/
def exHandle0 : QuiverHandle :=
  ⟨1 / 18, 3, 0, 9 / 2, [], [], [1]⟩

/-- A quiver artist drawn with `width=8` (stored `8 / 72 = 1/9`). -/
def exHandleW : QuiverHandle :=
  ⟨1 / 9, 3, 5, 9 / 2, [], [], [1]⟩

/-- Legend glyph for `exHandle` with legend points `[0, 10]`, height 6,
descent 1. -/
def exArrow : FancyArrow :=
  ⟨0, 5 / 2, 10, 0, 12, 20, 1 / 10, true, 4, 1, some [0, 0, 0, 1], some [1, 1, 1, 1]⟩

/-- Legend glyph for `exHandle` with legend points `[0, 20]`, height 8,
descent 0: same style, different geometry. -/
def exArrow2 : FancyArrow :=
  ⟨0, 4, 20, 0, 12, 20, 1 / 10, true, 4, 1, some [0, 0, 0, 1], some [1, 1, 1, 1]⟩

/-- Legend glyph for `exHandleW` with legend points `[0, 10]`, height 6,
descent 1. -/
def exArrowW : FancyArrow :=
  ⟨0, 5 / 2, 10, 0, 24, 40, 1 / 10, true, 8, 1, none, none⟩

/-! ### Dictionary lemmas -/

lemma lookupKw_removeKw_ne (kw : Kwargs) (k k' : String) (h : k' ≠ k) :
    lookupKw (removeKw kw k) k' = lookupKw kw k' := by
  induction kw with
  | nil => rfl
  | cons p t ih =>
    obtain ⟨a, b⟩ := p
    simp only [removeKw]
    by_cases hak : a = k
    · rw [if_pos hak, ih]
      simp only [lookupKw]
      rw [if_neg fun hk : a = k' => absurd (hk.symm.trans hak) h]
    · rw [if_neg hak]
      simp only [lookupKw]
      rw [ih]

lemma mem_removeKw_ne (kw : Kwargs) (k k' : String) (v : PyVal) (h : k' ≠ k) :
    (k', v) ∈ removeKw kw k ↔ (k', v) ∈ kw := by
  induction kw with
  | nil => simp [removeKw]
  | cons p t ih =>
    obtain ⟨a, b⟩ := p
    simp only [removeKw]
    by_cases hak : a = k
    · rw [if_pos hak, ih]
      simp only [List.mem_cons]
      constructor
      · exact Or.inr
      · rintro (hp | hp)
        · exact absurd ((congrArg Prod.fst hp).trans hak) h
        · exact hp
    · rw [if_neg hak]
      simp only [List.mem_cons, ih]

lemma dictPop_fst (kw : Kwargs) (k : String) (d : PyVal) :
    (dictPop kw k d).1 = (lookupKw kw k).getD d := by
  unfold dictPop
  cases lookupKw kw k <;> simp

lemma dictPop_lookup_ne (kw : Kwargs) (k d : _) (k' : String) (h : k' ≠ k) :
    lookupKw (dictPop kw k d).2 k' = lookupKw kw k' := by
  unfold dictPop
  cases lookupKw kw k <;> simp [lookupKw_removeKw_ne _ _ _ h]

lemma dictPop_mem_ne (kw : Kwargs) (k : String) (d v : PyVal) (k' : String) (h : k' ≠ k) :
    (k', v) ∈ (dictPop kw k d).2 ↔ (k', v) ∈ kw := by
  unfold dictPop
  cases lookupKw kw k <;> simp [mem_removeKw_ne _ _ _ _ h]

/-! ### The five pops of `arrows`, expressed over the original kwargs -/

lemma popOpts_units (kw : Kwargs) :
    (popOpts kw).units = (lookupKw kw "units").getD (PyVal.str "inches") := by
  simp [popOpts, dictPop_fst]

lemma popOpts_scale_units (kw : Kwargs) :
    (popOpts kw).scale_units = (lookupKw kw "scale_units").getD (PyVal.str "xy") := by
  simp only [popOpts, dictPop_fst]
  rw [dictPop_lookup_ne _ _ _ _ (by decide)]

lemma popOpts_angles (kw : Kwargs) :
    (popOpts kw).angles = (lookupKw kw "angles").getD (PyVal.str "xy") := by
  simp only [popOpts, dictPop_fst]
  rw [dictPop_lookup_ne _ _ _ _ (by decide), dictPop_lookup_ne _ _ _ _ (by decide)]

lemma popOpts_scale (kw : Kwargs) :
    (popOpts kw).scale = (lookupKw kw "scale").getD (PyVal.num 1) := by
  simp only [popOpts, dictPop_fst]
  rw [dictPop_lookup_ne _ _ _ _ (by decide), dictPop_lookup_ne _ _ _ _ (by decide),
    dictPop_lookup_ne _ _ _ _ (by decide)]

lemma popOpts_widthRaw (kw : Kwargs) :
    (popOpts kw).widthRaw = (lookupKw kw "width").getD (PyVal.num 4) := by
  simp only [popOpts, dictPop_fst]
  rw [dictPop_lookup_ne _ _ _ _ (by decide), dictPop_lookup_ne _ _ _ _ (by decide),
    dictPop_lookup_ne _ _ _ _ (by decide), dictPop_lookup_ne _ _ _ _ (by decide)]

lemma popOpts_rest_mem (kw : Kwargs) (k : String) (v : PyVal)
    (h1 : k ≠ "units") (h2 : k ≠ "scale_units") (h3 : k ≠ "angles")
    (h4 : k ≠ "scale") (h5 : k ≠ "width") :
    (k, v) ∈ (popOpts kw).rest ↔ (k, v) ∈ kw := by
  simp only [popOpts]
  rw [dictPop_mem_ne _ _ _ _ _ h5, dictPop_mem_ne _ _ _ _ _ h4,
    dictPop_mem_ne _ _ _ _ _ h3, dictPop_mem_ne _ _ _ _ _ h2,
    dictPop_mem_ne _ _ _ _ _ h1]

lemma popOpts_widthRaw_num (kw : Kwargs) (hw : widthIsNumeric kw = true) :
    ∃ w0, (popOpts kw).widthRaw = PyVal.num w0 := by
  rw [popOpts_widthRaw]
  unfold widthIsNumeric at hw
  rcases hl : lookupKw kw "width" with _ | v
  · exact ⟨4, rfl⟩
  · rcases v with s | q
    · rw [hl] at hw; simp at hw
    · exact ⟨q, by simp⟩

/-! ### Inversion of `arrows` -/

/-- Everything true of a successful `arrows` call, read off the record it
delegates to `ax.quiver`. -/
lemma arrows_ok_elim (xstart ystart xend yend : ArrayLike) (args : List PyVal)
    (vertical : Bool) (kwargs : Kwargs) (c : QuiverCall)
    (h : arrows xstart ystart xend yend args vertical kwargs = Except.ok c) :
    (∃ w0, (popOpts kwargs).widthRaw = PyVal.num w0 ∧ c.width = w0 / 72) ∧
    (ravel xstart).length = (ravel ystart).length ∧
    (ravel xstart).length = (ravel xend).length ∧
    (ravel ystart).length = (ravel yend).length ∧
    c.args = args ∧ c.units = (popOpts kwargs).units ∧
    c.scale_units = (popOpts kwargs).scale_units ∧
    c.angles = (popOpts kwargs).angles ∧ c.scale = (popOpts kwargs).scale ∧
    c.kwargs = (popOpts kwargs).rest ∧
    c.xstart = (if vertical then ravel ystart else ravel xstart) ∧
    c.ystart = (if vertical then ravel xstart else ravel ystart) ∧
    c.u = (if vertical then List.zipWith (fun a b => a - b) (ravel yend) (ravel ystart)
           else List.zipWith (fun a b => a - b) (ravel xend) (ravel xstart)) ∧
    c.v = (if vertical then List.zipWith (fun a b => a - b) (ravel xend) (ravel xstart)
           else List.zipWith (fun a b => a - b) (ravel yend) (ravel ystart)) := by
  rcases hw : (popOpts kwargs).widthRaw with s | w0
  · rw [arrows, hw] at h
    exact Except.noConfusion h
  · rw [arrows, hw] at h
    simp only at h
    by_cases h1 : (ravel xstart).length ≠ (ravel ystart).length
    · rw [if_pos h1] at h; exact Except.noConfusion h
    rw [if_neg h1] at h
    by_cases h2 : (ravel xstart).length ≠ (ravel xend).length
    · rw [if_pos h2] at h; exact Except.noConfusion h
    rw [if_neg h2] at h
    by_cases h3 : (ravel ystart).length ≠ (ravel yend).length
    · rw [if_pos h3] at h; exact Except.noConfusion h
    rw [if_neg h3] at h
    rw [not_ne_iff] at h1 h2 h3
    cases vertical
    · rw [if_neg (by decide)] at h
      injection h with h'
      subst h'
      exact ⟨⟨w0, rfl, rfl⟩, h1, h2, h3, rfl, rfl, rfl, rfl, rfl, rfl, rfl, rfl, rfl, rfl⟩
    · rw [if_pos (by decide)] at h
      injection h with h'
      subst h'
      exact ⟨⟨w0, rfl, rfl⟩, h1, h2, h3, rfl, rfl, rfl, rfl, rfl, rfl, rfl, rfl, rfl, rfl⟩

/-- A call whose width keyword resolved to a number and whose raveled
inputs share a size delegates to `ax.quiver` with exactly these
arguments. -/
lemma arrows_ok_intro (xstart ystart xend yend : ArrayLike) (args : List PyVal)
    (vertical : Bool) (kwargs : Kwargs) (w0 : ℚ)
    (hw : (popOpts kwargs).widthRaw = PyVal.num w0)
    (h1 : (ravel xstart).length = (ravel ystart).length)
    (h2 : (ravel xstart).length = (ravel xend).length)
    (h3 : (ravel ystart).length = (ravel yend).length) :
    arrows xstart ystart xend yend args vertical kwargs = Except.ok
      { xstart := if vertical then ravel ystart else ravel xstart,
        ystart := if vertical then ravel xstart else ravel ystart,
        u := if vertical then List.zipWith (fun a b => a - b) (ravel yend) (ravel ystart)
             else List.zipWith (fun a b => a - b) (ravel xend) (ravel xstart),
        v := if vertical then List.zipWith (fun a b => a - b) (ravel xend) (ravel xstart)
             else List.zipWith (fun a b => a - b) (ravel yend) (ravel ystart),
        args := args, units := (popOpts kwargs).units,
        scale_units := (popOpts kwargs).scale_units, angles := (popOpts kwargs).angles,
        scale := (popOpts kwargs).scale, width := w0 / 72,
        kwargs := (popOpts kwargs).rest } := by
  rw [arrows, hw]
  simp only
  rw [if_neg (not_ne_iff.mpr h1), if_neg (not_ne_iff.mpr h2), if_neg (not_ne_iff.mpr h3)]
  cases vertical
  · rw [if_neg (by decide)]
    rfl
  · rw [if_pos (by decide)]
    rfl

/-- On a numeric width keyword, the errors `arrows` can raise are
exactly its three size-check messages, and one is raised precisely when
the raveled sizes do not all agree. -/
lemma arrows_error_elim (xstart ystart xend yend : ArrayLike) (args : List PyVal)
    (vertical : Bool) (kwargs : Kwargs) (e : String)
    (hw : widthIsNumeric kwargs = true)
    (h : arrows xstart ystart xend yend args vertical kwargs = Except.error e) :
    (e = "xstart and ystart must be the same size" ∨
     e = "xstart and xend must be the same size" ∨
     e = "ystart and yend must be the same size") ∧
    ¬ ((ravel xstart).length = (ravel ystart).length ∧
       (ravel xstart).length = (ravel xend).length ∧
       (ravel ystart).length = (ravel yend).length) := by
  obtain ⟨w0, hw0⟩ := popOpts_widthRaw_num kwargs hw
  rw [arrows, hw0] at h
  simp only at h
  by_cases h1 : (ravel xstart).length ≠ (ravel ystart).length
  · rw [if_pos h1] at h
    injection h with h'
    exact ⟨Or.inl h'.symm, fun hc => h1 hc.1⟩
  rw [if_neg h1] at h
  by_cases h2 : (ravel xstart).length ≠ (ravel xend).length
  · rw [if_pos h2] at h
    injection h with h'
    exact ⟨Or.inr (Or.inl h'.symm), fun hc => h2 hc.2.1⟩
  rw [if_neg h2] at h
  by_cases h3 : (ravel ystart).length ≠ (ravel yend).length
  · rw [if_pos h3] at h
    injection h with h'
    exact ⟨Or.inr (Or.inr h'.symm), fun hc => h3 hc.2.2⟩
  rw [if_neg h3] at h
  cases vertical
  · rw [if_neg (by decide)] at h
    exact Except.noConfusion h
  · rw [if_pos (by decide)] at h
    exact Except.noConfusion h

/-- Mismatched raveled sizes always raise one of the three size-check
errors. -/
lemma arrows_error_intro (xstart ystart xend yend : ArrayLike) (args : List PyVal)
    (vertical : Bool) (kwargs : Kwargs)
    (hm : ¬ ((ravel xstart).length = (ravel ystart).length ∧
             (ravel xstart).length = (ravel xend).length ∧
             (ravel ystart).length = (ravel yend).length)) :
    ∃ e, arrows xstart ystart xend yend args vertical kwargs = Except.error e := by
  rcases hw : (popOpts kwargs).widthRaw with s | w0
  · exact ⟨_, by rw [arrows, hw]⟩
  · rw [arrows, hw]
    simp only
    by_cases h1 : (ravel xstart).length ≠ (ravel ystart).length
    · exact ⟨_, by rw [if_pos h1]⟩
    rw [if_neg h1]
    by_cases h2 : (ravel xstart).length ≠ (ravel xend).length
    · exact ⟨_, by rw [if_pos h2]⟩
    rw [if_neg h2]
    by_cases h3 : (ravel ystart).length ≠ (ravel yend).length
    · exact ⟨_, by rw [if_pos h3]⟩
    rw [not_ne_iff] at h1 h2 h3
    exact absurd ⟨h1, h2, h3⟩ hm

/-! ### Inversion of `create_artists` -/

/-- Everything true of a successfully built legend glyph, read off the
`FancyArrow` record. -/
lemma create_artists_ok_elim (H : QuiverHandle) (xdata : List ℚ)
    (height ydescent : ℚ) (fa : FancyArrow)
    (h : create_artists H xdata height ydescent = Except.ok fa) :
    H.headlength ≠ 0 ∧
    fa.head_width = H.width * 72 * H.headwidth ∧
    fa.head_length = H.width * 72 * H.headlength ∧
    fa.overhang = (H.headlength - H.headaxislength) / H.headlength ∧
    fa.width = H.width * 72 ∧
    fa.lw = H.linewidths.headD 0 ∧
    fa.edgecolor = H.edgecolor.head? ∧
    fa.facecolor = H.facecolor.head? ∧
    fa.length_includes_head = true := by
  rw [create_artists] at h
  by_cases h0 : H.headlength = 0
  · rw [if_pos h0] at h
    exact Except.noConfusion h
  rw [if_neg h0] at h
  rcases xdata with _ | ⟨x0, xrest⟩
  · exact Except.noConfusion h
  rcases hlw : H.linewidths with _ | ⟨lw0, lwrest⟩
  · rw [hlw] at h
    simp only [List.length_cons, List.replicate_succ] at h
    exact Except.noConfusion h
  · rw [hlw] at h
    simp only [List.length_cons, List.replicate_succ] at h
    injection h with h'
    subst h'
    exact ⟨h0, rfl, rfl, rfl, rfl, rfl, rfl, rfl, rfl⟩

/-- The only failures of `create_artists`: the overhang division when the
stored head length is zero, and indexing an empty legend-point or
linewidth array otherwise. -/
lemma create_artists_error_elim (H : QuiverHandle) (xdata : List ℚ)
    (height ydescent : ℚ) (e : String)
    (h : create_artists H xdata height ydescent = Except.error e) :
    (H.headlength = 0 ∧ e = "float division by zero") ∨
    (H.headlength ≠ 0 ∧ e = "list index out of range") := by
  rw [create_artists] at h
  by_cases h0 : H.headlength = 0
  · rw [if_pos h0] at h
    injection h with h'
    exact Or.inl ⟨h0, h'.symm⟩
  rw [if_neg h0] at h
  rcases xdata with _ | ⟨x0, xrest⟩
  · injection h with h'
    exact Or.inr ⟨h0, h'.symm⟩
  rcases hlw : H.linewidths with _ | ⟨lw0, lwrest⟩
  · rw [hlw] at h
    simp only [List.length_cons, List.replicate_succ] at h
    injection h with h'
    exact Or.inr ⟨h0, h'.symm⟩
  · rw [hlw] at h
    simp only [List.length_cons, List.replicate_succ] at h
    exact Except.noConfusion h

/-- A zero stored head length always raises the division-by-zero error
(quiver.py line 131). -/
lemma create_artists_zero_headlength (H : QuiverHandle) (xdata : List ℚ)
    (height ydescent : ℚ) (h0 : H.headlength = 0) :
    create_artists H xdata height ydescent = Except.error "float division by zero" := by
  rw [create_artists, if_pos h0]

/-- Elementwise reading of a `zipWith` subtraction over equal-length
lists. -/
lemma zipWith_sub_getD (xs ys : List ℚ) (h : xs.length = ys.length) (i : ℕ) :
    (List.zipWith (fun a b => a - b) xs ys).getD i 0 = xs.getD i 0 - ys.getD i 0 := by
  induction xs generalizing ys i with
  | nil =>
    cases ys with
    | nil => simp
    | cons b t => simp at h
  | cons a s ih =>
    cases ys with
    | nil => simp at h
    | cons b t =>
      cases i with
      | zero => simp
      | succ j =>
        simp only [List.zipWith_cons_cons, List.getD_cons_succ]
        exact ih t (by simpa using h) j

/-! ### The claims -/

/-- C1: a call to `arrows` raises a length-mismatch `ValueError` if and
only if the four coordinate inputs, after flattening with `ravel`, do
not all share one size; in particular the three pairwise checks enforce
a common length for all four flattened arrays whenever `arrows` does not
raise. -/
theorem arrows_raises_iff_size_mismatch (xstart ystart xend yend : ArrayLike)
    (args : List PyVal) (vertical : Bool) (kwargs : Kwargs)
    (hw : widthIsNumeric kwargs = true) :
    (∃ e, arrows xstart ystart xend yend args vertical kwargs = Except.error e) ↔
      ¬ ((ravel xstart).length = (ravel ystart).length ∧
         (ravel xstart).length = (ravel xend).length ∧
         (ravel xstart).length = (ravel yend).length) := by
  constructor
  · rintro ⟨e, he⟩ ⟨h1, h2, h3⟩
    exact (arrows_error_elim _ _ _ _ _ _ _ _ hw he).2 ⟨h1, h2, h1.symm.trans h3⟩
  · intro hm
    refine arrows_error_intro _ _ _ _ _ _ _ fun ⟨h1, h2, h3⟩ =>
      hm ⟨h1, h2, h1.trans h3⟩

/-- C1 witness: mismatched sizes `2` and `1` raise. -/
theorem arrows_raises_iff_size_mismatch_witness :
    ∃ e, arrows (ArrayLike.arr [0, 1]) (ArrayLike.arr [0]) (ArrayLike.arr [0, 1])
      (ArrayLike.arr [0, 1]) [] false [] = Except.error e :=
  (arrows_raises_iff_size_mismatch (ArrayLike.arr [0, 1]) (ArrayLike.arr [0])
    (ArrayLike.arr [0, 1]) (ArrayLike.arr [0, 1]) [] false [] rfl).mpr (by decide)

/-- C2: with `vertical=False`, the direction vector `arrows` passes to
the quiver call is end minus start componentwise over the flattened
arrays: `u = xend - xstart` and `v = yend - ystart`. -/
theorem arrows_direction_end_minus_start (xstart ystart xend yend : ArrayLike)
    (args : List PyVal) (kwargs : Kwargs) (c : QuiverCall)
    (h : arrows xstart ystart xend yend args false kwargs = Except.ok c) :
    c.u = List.zipWith (fun a b => a - b) (ravel xend) (ravel xstart) ∧
    c.v = List.zipWith (fun a b => a - b) (ravel yend) (ravel ystart) ∧
    (∀ i : ℕ, c.u.getD i 0 = (ravel xend).getD i 0 - (ravel xstart).getD i 0) ∧
    (∀ i : ℕ, c.v.getD i 0 = (ravel yend).getD i 0 - (ravel ystart).getD i 0) := by
  obtain ⟨_, h1, h2, h3, _, _, _, _, _, _, _, _, hu, hv⟩ :=
    arrows_ok_elim _ _ _ _ _ _ _ _ h
  rw [if_neg (by decide)] at hu
  rw [if_neg (by decide)] at hv
  refine ⟨hu, hv, fun i => ?_, fun i => ?_⟩
  · rw [hu, zipWith_sub_getD _ _ h2.symm i]
  · rw [hv, zipWith_sub_getD _ _ h3.symm i]

/-- C2 witness: `arrows([0], [2], [4], [6])` passes `u = [4]`,
`v = [4]`. -/
theorem arrows_direction_end_minus_start_witness :
    arrows (ArrayLike.arr [0]) (ArrayLike.arr [2]) (ArrayLike.arr [4])
      (ArrayLike.arr [6]) [] false [] = Except.ok exCallH ∧
    exCallH.u = List.zipWith (fun a b => a - b) (ravel (ArrayLike.arr [4]))
      (ravel (ArrayLike.arr [0])) := by
  have h : arrows (ArrayLike.arr [0]) (ArrayLike.arr [2]) (ArrayLike.arr [4])
      (ArrayLike.arr [6]) [] false [] = Except.ok exCallH := by
    simp only [exCallH]
    simp [arrows, popOpts, dictPop, lookupKw, removeKw, ravel]
    norm_num
  exact ⟨h, (arrows_direction_end_minus_start _ _ _ _ _ _ _ h).1⟩

/-- C3: with `vertical=True`, `arrows` passes the quiver call the
positional arguments `(ystart, xstart, yend - ystart, xend - xstart)`,
identical to what `vertical=False` passes for the input with the roles
of x and y exchanged. -/
theorem arrows_vertical_swaps_components (xstart ystart xend yend : ArrayLike)
    (args : List PyVal) (kwargs : Kwargs) (c : QuiverCall)
    (h : arrows xstart ystart xend yend args true kwargs = Except.ok c) :
    c.xstart = ravel ystart ∧ c.ystart = ravel xstart ∧
    c.u = List.zipWith (fun a b => a - b) (ravel yend) (ravel ystart) ∧
    c.v = List.zipWith (fun a b => a - b) (ravel xend) (ravel xstart) ∧
    arrows ystart xstart yend xend args false kwargs = Except.ok c := by
  obtain ⟨⟨w0, hw0, hcw⟩, h1, h2, h3, ha, hun, hsu, han, hsc, hkw, hx, hy, hu, hv⟩ :=
    arrows_ok_elim _ _ _ _ _ _ _ _ h
  rw [if_pos (by decide)] at hx hy hu hv
  cases c
  dsimp only at hcw ha hun hsu han hsc hkw hx hy hu hv
  subst hcw ha hun hsu han hsc hkw hx hy hu hv
  refine ⟨rfl, rfl, rfl, rfl, ?_⟩
  simpa using arrows_ok_intro ystart xstart yend xend _ false kwargs w0 hw0
    h1.symm h3 h2

/-- C3 witness: `arrows([0], [2], [4], [6], vertical=True)` passes
`([2], [0], [4], [4])`, matching the swapped horizontal call. -/
theorem arrows_vertical_swaps_components_witness :
    arrows (ArrayLike.arr [0]) (ArrayLike.arr [2]) (ArrayLike.arr [4])
      (ArrayLike.arr [6]) [] true [] = Except.ok exCallV ∧
    arrows (ArrayLike.arr [2]) (ArrayLike.arr [0]) (ArrayLike.arr [6])
      (ArrayLike.arr [4]) [] false [] = Except.ok exCallV := by
  have h : arrows (ArrayLike.arr [0]) (ArrayLike.arr [2]) (ArrayLike.arr [4])
      (ArrayLike.arr [6]) [] true [] = Except.ok exCallV := by
    simp only [exCallV]
    simp [arrows, popOpts, dictPop, lookupKw, removeKw, ravel]
    norm_num
  exact ⟨h, (arrows_vertical_swaps_components _ _ _ _ _ _ _ h).2.2.2.2⟩

/-- C4: the legend glyph built by `create_artists` has head width equal
to the stored shaft width times 72 times the stored `headwidth`
multiplier, and head length equal to the stored shaft width times 72
times the stored `headlength` multiplier. -/
theorem create_artists_head_dimensions (H : QuiverHandle) (xdata : List ℚ)
    (height ydescent : ℚ) (fa : FancyArrow)
    (h : create_artists H xdata height ydescent = Except.ok fa) :
    fa.head_width = (H.width * 72) * H.headwidth ∧
    fa.head_length = (H.width * 72) * H.headlength :=
  ⟨(create_artists_ok_elim _ _ _ _ _ h).2.1,
   (create_artists_ok_elim _ _ _ _ _ h).2.2.1⟩

/-- C4 witness: stored width `1/18` with multipliers 3 and 5 gives head
width 12 and head length 20. -/
theorem create_artists_head_dimensions_witness :
    create_artists exHandle [0, 10] 6 1 = Except.ok exArrow ∧
    exArrow.head_width = (exHandle.width * 72) * exHandle.headwidth ∧
    exArrow.head_length = (exHandle.width * 72) * exHandle.headlength := by
  have h : create_artists exHandle [0, 10] 6 1 = Except.ok exArrow := by
    simp only [exHandle, exArrow]
    simp [create_artists]
    norm_num
  exact ⟨h, create_artists_head_dimensions _ _ _ _ _ h⟩

/-- C5: the keyword options `units`, `scale_units`, `angles`, `scale`
and `width` default to `'inches'`, `'xy'`, `'xy'`, `1` and `4` when not
supplied (width forwarded divided by 72), and every other keyword
argument is forwarded to the quiver call unchanged. -/
theorem arrows_kwarg_defaults_and_forwarding (xstart ystart xend yend : ArrayLike)
    (args : List PyVal) (vertical : Bool) (kwargs : Kwargs) (c : QuiverCall)
    (h : arrows xstart ystart xend yend args vertical kwargs = Except.ok c) :
    (lookupKw kwargs "units" = none → c.units = PyVal.str "inches") ∧
    (lookupKw kwargs "scale_units" = none → c.scale_units = PyVal.str "xy") ∧
    (lookupKw kwargs "angles" = none → c.angles = PyVal.str "xy") ∧
    (lookupKw kwargs "scale" = none → c.scale = PyVal.num 1) ∧
    (lookupKw kwargs "width" = none → c.width = 4 / 72) ∧
    (∀ (k : String) (v : PyVal), k ≠ "units" → k ≠ "scale_units" → k ≠ "angles" →
      k ≠ "scale" → k ≠ "width" → ((k, v) ∈ kwargs ↔ (k, v) ∈ c.kwargs)) := by
  obtain ⟨⟨w0, hw0, hcw⟩, _, _, _, _, hun, hsu, han, hsc, hkw, _, _, _, _⟩ :=
    arrows_ok_elim _ _ _ _ _ _ _ _ h
  refine ⟨?_, ?_, ?_, ?_, ?_, ?_⟩
  · intro hn; rw [hun, popOpts_units, hn]; rfl
  · intro hn; rw [hsu, popOpts_scale_units, hn]; rfl
  · intro hn; rw [han, popOpts_angles, hn]; rfl
  · intro hn; rw [hsc, popOpts_scale, hn]; rfl
  · intro hn
    rw [popOpts_widthRaw, hn] at hw0
    simp only [Option.getD_none, PyVal.num.injEq] at hw0
    rw [hcw, ← hw0]
  · intro k v h1 h2 h3 h4 h5
    rw [hkw, popOpts_rest_mem kwargs k v h1 h2 h3 h4 h5]

/-- C5 witness: a call with only `color='red'` supplied gets all five
defaults and forwards `color` untouched. -/
theorem arrows_kwarg_defaults_and_forwarding_witness :
    arrows (ArrayLike.arr [1]) (ArrayLike.arr [2]) (ArrayLike.arr [3])
      (ArrayLike.arr [4]) [] false [("color", PyVal.str "red")] = Except.ok exCall5 ∧
    exCall5.units = PyVal.str "inches" ∧ exCall5.width = 4 / 72 ∧
    (("color", PyVal.str "red") ∈ ([("color", PyVal.str "red")] : Kwargs) ↔
      ("color", PyVal.str "red") ∈ exCall5.kwargs) := by
  have h : arrows (ArrayLike.arr [1]) (ArrayLike.arr [2]) (ArrayLike.arr [3])
      (ArrayLike.arr [4]) [] false [("color", PyVal.str "red")] = Except.ok exCall5 := by
    simp only [exCall5]
    simp [arrows, popOpts, dictPop, lookupKw, removeKw, ravel]
    norm_num
  refine ⟨h, ?_, ?_, ?_⟩
  · exact (arrows_kwarg_defaults_and_forwarding _ _ _ _ _ _ _ _ h).1 rfl
  · exact (arrows_kwarg_defaults_and_forwarding _ _ _ _ _ _ _ _ h).2.2.2.2.1 rfl
  · exact (arrows_kwarg_defaults_and_forwarding _ _ _ _ _ _ _ _ h).2.2.2.2.2
      "color" (PyVal.str "red") (by decide) (by decide) (by decide) (by decide) (by decide)

/-- C6: the legend glyph's style is reconstructed entirely from the
handle's stored attributes — two builds from the same handle agree on
every style field — and its overhang equals
`(headlength - headaxislength) / headlength` of the stored values. -/
theorem create_artists_style_from_handle (H : QuiverHandle)
    (xd1 : List ℚ) (ht1 yd1 : ℚ) (xd2 : List ℚ) (ht2 yd2 : ℚ)
    (fa1 fa2 : FancyArrow)
    (h1 : create_artists H xd1 ht1 yd1 = Except.ok fa1)
    (h2 : create_artists H xd2 ht2 yd2 = Except.ok fa2) :
    fa1.overhang = (H.headlength - H.headaxislength) / H.headlength ∧
    fa1.head_width = fa2.head_width ∧ fa1.head_length = fa2.head_length ∧
    fa1.overhang = fa2.overhang ∧ fa1.width = fa2.width ∧ fa1.lw = fa2.lw ∧
    fa1.edgecolor = fa2.edgecolor ∧ fa1.facecolor = fa2.facecolor ∧
    fa1.length_includes_head = fa2.length_includes_head := by
  obtain ⟨-, hw1, hl1, ho1, hs1, hlw1, he1, hf1, hi1⟩ := create_artists_ok_elim _ _ _ _ _ h1
  obtain ⟨-, hw2, hl2, ho2, hs2, hlw2, he2, hf2, hi2⟩ := create_artists_ok_elim _ _ _ _ _ h2
  exact ⟨ho1, hw1.trans hw2.symm, hl1.trans hl2.symm, ho1.trans ho2.symm,
    hs1.trans hs2.symm, hlw1.trans hlw2.symm, he1.trans he2.symm,
    hf1.trans hf2.symm, hi1.trans hi2.symm⟩

/-- C6 witness: two different legend layouts over the same handle give
glyphs with identical style and overhang `1/10`. -/
theorem create_artists_style_from_handle_witness :
    create_artists exHandle [0, 10] 6 1 = Except.ok exArrow ∧
    create_artists exHandle [0, 20] 8 0 = Except.ok exArrow2 ∧
    exArrow.overhang = (exHandle.headlength - exHandle.headaxislength) / exHandle.headlength ∧
    exArrow.head_width = exArrow2.head_width := by
  have h1 : create_artists exHandle [0, 10] 6 1 = Except.ok exArrow := by
    simp only [exHandle, exArrow]
    simp [create_artists]
    norm_num
  have h2 : create_artists exHandle [0, 20] 8 0 = Except.ok exArrow2 := by
    simp only [exHandle, exArrow2]
    simp [create_artists]
    norm_num
  exact ⟨h1, h2, (create_artists_style_from_handle _ _ _ _ _ _ _ _ _ h1 h2).1,
    (create_artists_style_from_handle _ _ _ _ _ _ _ _ _ h1 h2).2.1⟩

/-- C7 counterexample: on mismatched sizes `arrows` raises its own
`ValueError` (quiver.py line 96) and never reaches the quiver call, so
not every failure is validation delegated to the underlying library. -/
theorem arrows_own_validation_cex :
    arrows (ArrayLike.arr [0, 1]) (ArrayLike.arr [0]) (ArrayLike.arr [0, 1])
      (ArrayLike.arr [0, 1]) [] false [] =
      Except.error "xstart and ystart must be the same size" := by decide

/-- C7 amended: `arrows` performs its own validation before delegating —
every error it raises itself (on a numeric width) is one of its three
size-check `ValueError`s; inputs passing those checks reach the
underlying quiver call. -/
theorem arrows_validates_before_delegating (xstart ystart xend yend : ArrayLike)
    (args : List PyVal) (vertical : Bool) (kwargs : Kwargs) (e : String)
    (hw : widthIsNumeric kwargs = true)
    (h : arrows xstart ystart xend yend args vertical kwargs = Except.error e) :
    e = "xstart and ystart must be the same size" ∨
    e = "xstart and xend must be the same size" ∨
    e = "ystart and yend must be the same size" :=
  (arrows_error_elim _ _ _ _ _ _ _ _ hw h).1

/-- C7 witness: the error raised on sizes `2` and `1` is one of the
three size-check messages. -/
theorem arrows_validates_before_delegating_witness :
    "xstart and ystart must be the same size" = "xstart and ystart must be the same size" ∨
    "xstart and ystart must be the same size" = "xstart and xend must be the same size" ∨
    "xstart and ystart must be the same size" = "ystart and yend must be the same size" :=
  arrows_validates_before_delegating (ArrayLike.arr [0, 1]) (ArrayLike.arr [0])
    (ArrayLike.arr [0, 1]) (ArrayLike.arr [0, 1]) [] false [] _ rfl (by decide)

/-- C8: `arrows` flattens a scalar to a size-1 array and performs no
broadcasting: a scalar `xstart` paired with a `ystart` of length greater
than one raises the size-mismatch `ValueError`. -/
theorem arrows_scalar_no_broadcast (q : ℚ) (ystart xend yend : ArrayLike)
    (args : List PyVal) (vertical : Bool) (kwargs : Kwargs)
    (hw : widthIsNumeric kwargs = true)
    (hlen : 1 < (ravel ystart).length) :
    (ravel (ArrayLike.scalar q)).length = 1 ∧
    arrows (ArrayLike.scalar q) ystart xend yend args vertical kwargs =
      Except.error "xstart and ystart must be the same size" := by
  refine ⟨rfl, ?_⟩
  obtain ⟨w0, hw0⟩ := popOpts_widthRaw_num kwargs hw
  rw [arrows, hw0]
  simp only
  rw [if_pos (show (ravel (ArrayLike.scalar q)).length ≠ (ravel ystart).length by
    simpa [ravel] using hlen.ne)]

/-- C8 witness: scalar `0` against a length-2 `ystart` raises. -/
theorem arrows_scalar_no_broadcast_witness :
    (ravel (ArrayLike.scalar 0)).length = 1 ∧
    arrows (ArrayLike.scalar 0) (ArrayLike.arr [1, 2]) (ArrayLike.arr [1, 2])
      (ArrayLike.arr [1, 2]) [] false [] =
      Except.error "xstart and ystart must be the same size" :=
  arrows_scalar_no_broadcast 0 (ArrayLike.arr [1, 2]) (ArrayLike.arr [1, 2])
    (ArrayLike.arr [1, 2]) [] false [] rfl (by decide)

/-- C9: `create_artists` divides by the stored `headlength` with no
guard: when it is nonzero the division-by-zero error is unreachable, and
when it is zero the computation fails with the division-by-zero error. -/
theorem create_artists_headlength_zero_guard (H : QuiverHandle) (xdata : List ℚ)
    (height ydescent : ℚ) :
    (H.headlength ≠ 0 →
      create_artists H xdata height ydescent ≠ Except.error "float division by zero") ∧
    (H.headlength = 0 →
      create_artists H xdata height ydescent = Except.error "float division by zero") := by
  constructor
  · intro h0 h
    rcases create_artists_error_elim _ _ _ _ _ h with ⟨hz, -⟩ | ⟨-, he⟩
    · exact h0 hz
    · exact absurd he (by decide)
  · exact create_artists_zero_headlength _ _ _ _

/-- C9 witness: `headlength = 0` fails with the division error while the
default handle never produces it. -/
theorem create_artists_headlength_zero_guard_witness :
    create_artists exHandle0 [0, 10] 6 1 = Except.error "float division by zero" ∧
    create_artists exHandle [0, 10] 6 1 ≠ Except.error "float division by zero" :=
  ⟨(create_artists_headlength_zero_guard exHandle0 [0, 10] 6 1).2 rfl,
   (create_artists_headlength_zero_guard exHandle [0, 10] 6 1).1
     (by norm_num [exHandle])⟩

/-- C10: the width conversions are mutually inverse — `arrows` stores
`width / 72` on the artist and the legend handler multiplies the stored
width by 72 — so for every width `w` passed to `arrows` (default 4) the
legend glyph's shaft width is exactly `w`. -/
theorem arrows_legend_width_roundtrip (w : ℚ) (xstart ystart xend yend : ArrayLike)
    (args : List PyVal) (vertical : Bool) (kwargs : Kwargs) (c : QuiverCall)
    (H : QuiverHandle) (xdata : List ℚ) (height ydescent : ℚ) (fa : FancyArrow)
    (hkw : lookupKw kwargs "width" = some (PyVal.num w) ∨
           (lookupKw kwargs "width" = none ∧ w = 4))
    (h1 : arrows xstart ystart xend yend args vertical kwargs = Except.ok c)
    (h2 : H.width = c.width)
    (h3 : create_artists H xdata height ydescent = Except.ok fa) :
    fa.width = w := by
  obtain ⟨⟨w0, hw0, hcw⟩, -⟩ := arrows_ok_elim _ _ _ _ _ _ _ _ h1
  have hfw := (create_artists_ok_elim _ _ _ _ _ h3).2.2.2.2.1
  rw [popOpts_widthRaw] at hw0
  have hww : w0 = w := by
    rcases hkw with hk | ⟨hk, hk4⟩
    · rw [hk] at hw0
      simp only [Option.getD_some, PyVal.num.injEq] at hw0
      exact hw0.symm
    · rw [hk] at hw0
      simp only [Option.getD_none, PyVal.num.injEq] at hw0
      rw [← hw0, hk4]
  rw [hfw, h2, hcw, hww]
  field_simp

/-- C10 witness: `width=8` stores `8/72 = 1/9` on the artist and the
legend glyph's shaft width is exactly 8 again. -/
theorem arrows_legend_width_roundtrip_witness :
    arrows (ArrayLike.arr [0]) (ArrayLike.arr [2]) (ArrayLike.arr [4])
      (ArrayLike.arr [6]) [] false [("width", PyVal.num 8)] = Except.ok exCallW ∧
    create_artists exHandleW [0, 10] 6 1 = Except.ok exArrowW ∧
    exArrowW.width = 8 := by
  have h1 : arrows (ArrayLike.arr [0]) (ArrayLike.arr [2]) (ArrayLike.arr [4])
      (ArrayLike.arr [6]) [] false [("width", PyVal.num 8)] = Except.ok exCallW := by
    simp only [exCallW]
    simp [arrows, popOpts, dictPop, lookupKw, removeKw, ravel]
    norm_num
  have h3 : create_artists exHandleW [0, 10] 6 1 = Except.ok exArrowW := by
    simp only [exHandleW, exArrowW]
    simp [create_artists]
    norm_num
  exact ⟨h1, h3, arrows_legend_width_roundtrip 8 (ArrayLike.arr [0]) (ArrayLike.arr [2])
    (ArrayLike.arr [4]) (ArrayLike.arr [6]) [] false [("width", PyVal.num 8)]
    exCallW exHandleW [0, 10] 6 1 exArrowW (Or.inl rfl) h1
    (by norm_num [exHandleW, exCallW]) h3⟩

end Mplsoccer
